import Mathlib

/-!
A shallow embedding of the Shotx client/server reliability layer
(src/client.js, src/server.js) and proofs about its behaviour.

JavaScript values are modelled by the inductive `JSValue`; machinery such
as truthiness (`falsy`) and property access (`getField`) mirrors the
dynamic semantics the source relies on.  Stateful code is embedded as
explicit state passing: the server is `SrvState`, the client is
`ClientState`, and promise settlement is a fold over event lists.
-/

/-- A JavaScript value, as far as the embedded code inspects one. -/
inductive JSValue where
  | undef
  | null
  | bool (b : Bool)
  | num (n : Int)
  | str (s : String)
  | arr (xs : List JSValue)
  | obj (fields : List (String × JSValue))
deriving Repr

namespace JSValue

/-- JavaScript truthiness test: `!v` in the source is `falsy v` here.
`undefined`, `null`, `false`, `0`, and `""` are falsy. -/
def falsy : JSValue → Bool
  | undef => true
  | null => true
  | bool b => !b
  | num n => n == 0
  | str s => s == ""
  | arr _ => false
  | obj _ => false

/-- `v && typeof v === 'object'`: true exactly for arrays and plain
objects (JS `typeof null` is `'object'` but `!null` already excludes it). -/
def isObjectLike : JSValue → Bool
  | arr _ => true
  | obj _ => true
  | _ => false

/-- Property access `v.k`: the field of an object, `undefined` otherwise
(array index properties are not accessed by the embedded code). -/
def getField : JSValue → String → JSValue
  | obj fields, k =>
      match fields.find? (fun p => p.1 == k) with
      | some p => p.2
      | none => undef
  | _, _ => undef

/-- Whether the value is a string (JS `typeof v === 'string'`). -/
def isStr : JSValue → Bool
  | str _ => true
  | _ => false

/-- The carried string, `""` for non-strings (only used after `isStr`). -/
def strOf : JSValue → String
  | str s => s
  | _ => ""

end JSValue

open JSValue

/-- JS `a || b` on an optional string: the fallback is used when the
string is absent or empty (empty strings are falsy). -/
def jsOrStr (a : Option String) (b : String) : String :=
  match a with
  | some s => if s = "" then b else s
  | none => b

/-! ## Server-side dispatcher (`SxServer.handleMessage`, src/server.js 162-190) -/

/-- The `meta` object of a response envelope built by the server. -/
structure RespMeta where
  success : Bool
  code : Option Int
  error : Option String
deriving Repr

/-- A response envelope `{meta, data}` passed to the ack callback. -/
structure Response where
  meta : RespMeta
  data : JSValue
deriving Repr

/-- An error response `{meta:{success:false, code, error}, data:null}`. -/
def errResp (code : Int) (error : String) : Response :=
  ⟨⟨false, some code, some error⟩, .null⟩

/-- A success response `{meta:{success:true}, data:result}`. -/
def okResp (result : JSValue) : Response :=
  ⟨⟨true, none, none⟩, result⟩

/-- A registered message handler: given `data` it either returns a result
or throws/rejects with an error whose `.message` is the string. -/
def Handler : Type := JSValue → Except String JSValue

/-- `SxServer.handleMessage(socket, message, callback)`: validates the
envelope, routes by `meta.type`, runs the handler inside try/catch and
always produces exactly one response for the callback. -/
def handleMessage (handlers : String → Option Handler) (message : JSValue) :
    Response :=
  if ¬ message.isObjectLike then
    errResp 2001 "Invalid message format"
  else
    let meta := message.getField "meta"
    let data := message.getField "data"
    if meta.falsy ∨ ¬ (meta.getField "type").isStr then
      errResp 2002 "Invalid message type"
    else
      let t := (meta.getField "type").strOf
      match handlers t with
      | none => errResp 2003 ("Unknown message type: " ++ t)
      | some h =>
          match h data with
          | .ok result => okResp result
          | .error e => errResp 2004 (jsOrStr (some e) "Error processing message")

/-! ## Server-side room outbox (`SxServer.to` / `processRoomMessages`,
src/server.js 197-217 and 250-276) -/

/-- A durable room-log entry `{type, data}` written by `this.db.add`. -/
structure RoomEntry where
  type : String
  data : JSValue
deriving Repr

/-- An emission of an envelope `{meta:{type}, data}` to a room via
`io.to(room).emit('message', …)`. -/
structure Emission where
  room : String
  type : String
  data : JSValue
deriving Repr

/-- Server state: the connected-member count per room (the adapter's
`rooms` map) and the durable per-room log (`this.db`). -/
structure SrvState where
  members : String → Nat
  db : String → List RoomEntry

/-- `to(room).send(type, data)`: emit immediately when the room has a
connected member, otherwise append `{type, data}` to the room's log. -/
def sendToRoom (st : SrvState) (room ty : String) (d : JSValue) :
    SrvState × List Emission :=
  if st.members room > 0 then
    (st, [⟨room, ty, d⟩])
  else
    ({ st with db := fun r => if r = room then st.db r ++ [⟨ty, d⟩] else st.db r }, [])

/-- `processRoomMessages(room)`: read the room's pending entries, emit
each in order, then delete the room's log (only when it was non-empty). -/
def processRoomMessages (st : SrvState) (room : String) :
    SrvState × List Emission :=
  let pending := st.db room
  if pending.length > 0 then
    ({ st with db := fun r => if r = room then [] else st.db r },
      pending.map (fun e => ⟨room, e.type, e.data⟩))
  else
    (st, [])

/-- The `sx_join` handler: the socket joins the room (member count grows
by one) and then `processRoomMessages` runs for that room. -/
def joinRoom (st : SrvState) (room : String) : SrvState × List Emission :=
  processRoomMessages
    { st with members := fun r => if r = room then st.members r + 1 else st.members r }
    room

/-! ## Client-side pending request (`SxClient._emitMessage`,
src/client.js 176-203) -/

/-- How a promise settled: `resolve(d)` or `reject(new Error(msg))`. -/
inductive Settled where
  | resolved (d : JSValue)
  | rejected (msg : String)
deriving Repr

/-- The timeout rejection message `TIMEOUT: <route> (<ms>ms)`. -/
def timeoutMsg (route : String) (ms : Nat) : String :=
  "TIMEOUT: " ++ route ++ " (" ++ toString ms ++ "ms)"

/-- The effective route used in the timeout message:
`meta.type || eventName` (JS `||`, so an empty type falls back). -/
def effRoute (metaType : Option String) (eventName : String) : String :=
  jsOrStr metaType eventName

/-- The ack callback's settlement of the pending promise: on
`success=false` it rejects with `new Error(meta.error || 'Unknown error')`
(only the error string is used), on `success=true` it resolves with
`data`. -/
def ackOutcome (r : Response) : Settled :=
  if ¬ r.meta.success then
    .rejected (jsOrStr r.meta.error "Unknown error")
  else
    .resolved r.data

/-- Events that may settle the pending promise of one `_emitMessage`
call: the timeout timer firing, or the acknowledgement arriving. -/
inductive PEvent where
  | timerFire
  | ack (r : Response)
deriving Repr

/-- One promise-settlement step.  A JS promise is settled at most once:
once `some s`, later `resolve`/`reject` calls are discarded.  The timer
only exists (and can only fire) when `ms > 0`. -/
def stepPending (route : String) (ms : Nat) (st : Option Settled)
    (e : PEvent) : Option Settled :=
  match st with
  | some s => some s
  | none =>
      match e with
      | .timerFire => if ms > 0 then some (.rejected (timeoutMsg route ms)) else none
      | .ack r => some (ackOutcome r)

/-- The settlement state of the pending promise after a sequence of
events, starting unsettled. -/
def runPending (route : String) (ms : Nat) (events : List PEvent) :
    Option Settled :=
  events.foldl (stepPending route ms) none

/-! ## Client state (`SxClient`, src/client.js) -/

/-- A message held in the offline queue.  `live` records whether the
entry carries `resolve`/`reject` functions (enqueued in this process) or
was reloaded from the durable store (`resolve = reject = null`). -/
structure QueueMsg where
  eventName : String
  data : JSValue
  meta : List (String × JSValue)
  live : Bool
deriving Repr

/-- A serializable copy `{eventName, data, meta}` of a queued message,
as mirrored to the durable IndexedDB store. -/
structure PersistMsg where
  eventName : String
  data : JSValue
  meta : List (String × JSValue)
deriving Repr

/-- A submission of an event to the transport
(`this.socket.emit(eventName, {meta, data}, ack)`). -/
structure Submission where
  eventName : String
  data : JSValue
  meta : List (String × JSValue)
deriving Repr

/-- The mutable fields of an `SxClient` instance that the embedded
operations touch.  `hasSocket` is whether `this.socket` is non-null;
`nextId` supplies the next fresh `uuidv7()`. -/
structure ClientState where
  isConnected : Bool
  hasSocket : Bool
  offlineQueue : List QueueMsg
  useIndexedDB : Bool
  persisted : List PersistMsg
  joinedRooms : List String
  messageHandlers : List (String × Nat)
  nextId : Nat
deriving Repr

/-- `meta.id = uuidv7()`: set (or overwrite) the `id` field of the meta
object. -/
def setMetaId (meta : List (String × JSValue)) (id : Nat) :
    List (String × JSValue) :=
  if (meta.find? (fun p => p.1 == "id")).isSome then
    meta.map (fun p => if p.1 == "id" then (p.1, JSValue.num id) else p)
  else
    meta ++ [("id", JSValue.num id)]

/-- `SxClient.emit` on the offline path (src/client.js 151-169): stamp
`meta.id`, append a live entry to `offlineQueue`, and mirror a
serializable copy to the durable store when IndexedDB is in use. -/
def emitOffline (st : ClientState) (eventName : String) (d : JSValue)
    (meta : List (String × JSValue)) : ClientState :=
  let m := setMetaId meta st.nextId
  { st with
    offlineQueue := st.offlineQueue ++ [⟨eventName, d, m, true⟩],
    persisted :=
      if st.useIndexedDB then st.persisted ++ [⟨eventName, d, m⟩]
      else st.persisted,
    nextId := st.nextId + 1 }

/-- A sequence of `emit`/`send` calls made while disconnected, applied in
call order. -/
def emitAll (st : ClientState)
    (calls : List (String × JSValue × List (String × JSValue))) : ClientState :=
  calls.foldl (fun s c => emitOffline s c.1 c.2.1 c.2.2) st

/-- The body of `processQueue`'s drain loop (src/client.js 215-234):
shift entries in FIFO order, submit each via `_emitMessage`, and count
an entry as processed unless it was a persisted entry whose awaited
submission threw.  Returns the submissions in order and the processed
count. -/
def drainQueue (queue : List QueueMsg)
    (outcome : Submission → Except String JSValue) :
    List Submission × Nat :=
  match queue with
  | [] => ([], 0)
  | q :: rest =>
      let sub : Submission := ⟨q.eventName, q.data, q.meta⟩
      let ok : Bool := if q.live then true else (outcome sub).isOk
      let (subs, n) := drainQueue rest outcome
      (sub :: subs, (if ok then 1 else 0) + n)

/-- `SxClient.processQueue` (src/client.js 206-241): return unchanged
when disconnected; otherwise drain the queue front-to-back, and clear
the durable store only when every entry of the original queue was
processed and IndexedDB is in use. -/
def processQueue (st : ClientState)
    (outcome : Submission → Except String JSValue) :
    ClientState × List Submission :=
  if ¬ st.isConnected then (st, [])
  else
    let originalQueueLength := st.offlineQueue.length
    let (subs, processedCount) := drainQueue st.offlineQueue outcome
    ({ st with
        offlineQueue := [],
        persisted :=
          if processedCount = originalQueueLength ∧ st.useIndexedDB then []
          else st.persisted }, subs)

/-! ## Room rejoin (`SxClient.rejoinRooms`, src/client.js 244-257) -/

/-- The rejoin loop: for each room in order, awaits `_joinRoom(room)`
(`send('sx_join', {room})`); a failure is caught and logged, and the loop
continues with the next room.  Returns each attempted room paired with
whether its join succeeded. -/
def rejoinLoop (rooms : List String)
    (outcome : String → Except String JSValue) : List (String × Bool) :=
  match rooms with
  | [] => []
  | r :: rest => (r, (outcome r).isOk) :: rejoinLoop rest outcome

/-- `SxClient.rejoinRooms`: returns immediately when disconnected or when
no room is joined; otherwise attempts every room of `joinedRooms`.  The
membership set itself is never mutated here. -/
def rejoinRooms (st : ClientState)
    (outcome : String → Except String JSValue) :
    ClientState × List (String × Bool) :=
  if ¬ st.isConnected ∨ st.joinedRooms.isEmpty then (st, [])
  else (st, rejoinLoop st.joinedRooms outcome)

/-- `SxClient.disconnect` (src/client.js 350-357): clears the connected
flag and drops the socket; `joinedRooms`, the queue and the store are
untouched. -/
def disconnectClient (st : ClientState) : ClientState :=
  if st.hasSocket then { st with isConnected := false, hasSocket := false }
  else st

/-! ## Connect handshake (`SxClient.connect`, src/client.js 292-348) -/

/-- `connect` when `this.isConnected` already holds (src/client.js
293-295): return at once.  The `async` function's promise resolves with
`undefined`; no socket is created and no field is mutated.  `none` means
the guard did not fire and the handshake proceeds. -/
def connectWhenConnected (st : ClientState) : Option (ClientState × JSValue) :=
  if st.isConnected then some (st, JSValue.undef) else none

/-- Events the `connect` promise and its transport listeners observe:
the connect timer firing, the transport-level `connect` event, a
`disconnect`, and `auth_success` with the session data. -/
inductive CEvent where
  | timerFire
  | transportConnect
  | transportDisconnect
  | authSuccess (d : JSValue)
deriving Repr

/-- The observable state of one in-flight `connect` call: the client
fields, the settlement state of the promise returned by `connect`, the
submissions flushed from the offline queue, and the rooms for which a
rejoin was attempted. -/
structure ConnectRun where
  client : ClientState
  promise : Option Settled
  flushed : List Submission
  rejoinAttempts : List (String × Bool)
deriving Repr

/-- One step of the `connect` listeners (src/client.js 300-347):
`timerFire` rejects the promise with `TIMEOUT: connect (<ms>ms)` (only
when `ms > 0` armed a timer, and with no effect once settled);
`transportConnect` sets `isConnected`; `transportDisconnect` clears it;
`auth_success` flushes the queue, rejoins rooms, and resolves the
promise (a no-op when it is already settled).  No listener is removed by
a timeout, so a late `auth_success` still runs its side effects. -/
def stepConnect (ms : Nat)
    (outcome : Submission → Except String JSValue)
    (joinOutcome : String → Except String JSValue)
    (run : ConnectRun) (e : CEvent) : ConnectRun :=
  match e with
  | .timerFire =>
      if ms > 0 then
        { run with
          promise :=
            match run.promise with
            | some s => some s
            | none => some (.rejected (timeoutMsg "connect" ms)) }
      else run
  | .transportConnect =>
      { run with client := { run.client with isConnected := true, hasSocket := true } }
  | .transportDisconnect =>
      { run with client := { run.client with isConnected := false } }
  | .authSuccess d =>
      let (st1, subs) := processQueue run.client outcome
      let (st2, attempts) := rejoinRooms st1 joinOutcome
      { run with
        client := st2,
        flushed := run.flushed ++ subs,
        rejoinAttempts := run.rejoinAttempts ++ attempts,
        promise :=
          match run.promise with
          | some s => some s
          | none => some (.resolved d) }

/-- The state of one `connect` call after a sequence of transport/timer
events, starting from `st` with an unsettled promise. -/
def runConnect (ms : Nat)
    (outcome : Submission → Except String JSValue)
    (joinOutcome : String → Except String JSValue)
    (st : ClientState) (events : List CEvent) : ConnectRun :=
  events.foldl (stepConnect ms outcome joinOutcome) ⟨st, none, [], []⟩

/-! ## Client push routing (`SxClient.onMessage` /
`_setupMessageRouting`, src/client.js 264-289 and 378-386) -/

/-- `Map.set` on the handler table: re-registration overwrites. -/
def setHandler (tbl : List (String × Nat)) (route : String) (h : Nat) :
    List (String × Nat) :=
  if (tbl.find? (fun p => p.1 == route)).isSome then
    tbl.map (fun p => if p.1 == route then (p.1, h) else p)
  else
    tbl ++ [(route, h)]

/-- `SxClient.onMessage(route, handler)`: when `this.socket` is null the
call only logs a warning and returns — the table is untouched.
Otherwise the handler is stored under the route. -/
def clientOnMessage (st : ClientState) (route : String) (h : Nat) :
    ClientState :=
  if ¬ st.hasSocket then st
  else { st with messageHandlers := setHandler st.messageHandlers route h }

/-- The routing listener on inbound pushes: a message without a truthy
`meta.type` is dropped; otherwise the handler registered for the type is
looked up, and the push is dropped when none is found.  Returns the
handler that would run. -/
def clientRoute (st : ClientState) (message : JSValue) : Option Nat :=
  let meta := message.getField "meta"
  if meta.falsy ∨ (meta.getField "type").falsy then none
  else
    match meta.getField "type" with
    | .str t => (st.messageHandlers.find? (fun p => p.1 == t)).map Prod.snd
    | _ => none

/-! ## Derived notions and concrete example values -/

/-- The submission a queued message produces when it is shifted out of
the queue and handed to `_emitMessage`. -/
def queueSub (q : QueueMsg) : Submission :=
  ⟨q.eventName, q.data, q.meta⟩

/-- The queue entries that a sequence of offline `emit` calls produces,
with `meta.id` stamped from the consecutive uuid supply starting at
`n0`. -/
def expectedEntries (n0 : Nat)
    (calls : List (String × JSValue × List (String × JSValue))) :
    List QueueMsg :=
  match calls with
  | [] => []
  | c :: rest => ⟨c.1, c.2.1, setMetaId c.2.2 n0, true⟩ :: expectedEntries (n0 + 1) rest

/-- Whether a pending-promise event is the acknowledgement. -/
def PEvent.isAck : PEvent → Bool
  | .ack _ => true
  | .timerFire => false

/-- A fresh client as built by the constructor (browser profile, so
IndexedDB is in use), before any `connect` call. -/
def exClient : ClientState :=
  { isConnected := false, hasSocket := false, offlineQueue := [],
    useIndexedDB := true, persisted := [], joinedRooms := [],
    messageHandlers := [], nextId := 0 }

/-- Two concrete `send`-style calls made while offline. -/
def exCalls : List (String × JSValue × List (String × JSValue)) :=
  [("message", (JSValue.str "a", [("type", JSValue.str "chat")])),
   ("message", (JSValue.str "b", [("type", JSValue.str "chat")]))]

/-- A transport that acknowledges every submission with success. -/
def exOutcome : Submission → Except String JSValue := fun _ => .ok .null

/-- A join transport on which rejoining room `"r2"` fails and every
other room succeeds. -/
def exJoinOutcome : String → Except String JSValue :=
  fun r => if r = "r2" then .error "join failed" else .ok .null

/-- A server with no connected members and empty room logs. -/
def exSrv : SrvState := ⟨fun _ => 0, fun _ => []⟩

/-- A connected client that has joined two rooms. -/
def exClientJoined : ClientState :=
  { exClient with isConnected := true, hasSocket := true,
                  joinedRooms := ["r1", "r2"] }

/-- A concrete session object delivered by `auth_success`. -/
def exSession : JSValue := .obj [("user", .str "ana")]

/-- Concrete route table: `echo` echoes its data, `bad` throws `boom`. -/
def exHandlers : String → Option Handler :=
  fun t =>
    if t = "echo" then some (fun d => .ok d)
    else if t = "bad" then some (fun _ => .error "boom") else none

/-! ## Helper lemmas -/

theorem settled_absorb (route : String) (ms : Nat) (es : List PEvent) (s : Settled) :
    es.foldl (stepPending route ms) (some s) = some s := by
  induction es with
  | nil => rfl
  | cons e rest ih => simpa [stepPending] using ih

theorem rejoinLoop_map_fst (rooms : List String)
    (outcome : String → Except String JSValue) :
    (rejoinLoop rooms outcome).map Prod.fst = rooms := by
  induction rooms with
  | nil => rfl
  | cons r rest ih => simp [rejoinLoop, ih]

theorem drainQueue_all_live (outcome : Submission → Except String JSValue)
    (queue : List QueueMsg) (h : ∀ q ∈ queue, q.live = true) :
    drainQueue queue outcome = (queue.map queueSub, queue.length) := by
  induction queue with
  | nil => rfl
  | cons q rest ih =>
      have hq : q.live = true := h q (by simp)
      have hrest : ∀ p ∈ rest, p.live = true := fun p hp => h p (by simp [hp])
      simp [drainQueue, hq, ih hrest, queueSub, Nat.add_comm]

theorem expectedEntries_live
    (calls : List (String × JSValue × List (String × JSValue))) :
    ∀ (n : Nat) (q : QueueMsg), q ∈ expectedEntries n calls → q.live = true := by
  induction calls with
  | nil => intro n q h; simp [expectedEntries] at h
  | cons c rest ih =>
      intro n q h
      simp only [expectedEntries, List.mem_cons] at h
      rcases h with h | h
      · subst h; rfl
      · exact ih (n + 1) q h

theorem expectedEntries_length
    (calls : List (String × JSValue × List (String × JSValue))) :
    ∀ n : Nat, (expectedEntries n calls).length = calls.length := by
  induction calls with
  | nil => intro n; rfl
  | cons c rest ih => intro n; simp [expectedEntries, ih (n + 1)]

theorem emitAll_offlineQueue
    (calls : List (String × JSValue × List (String × JSValue))) :
    ∀ st : ClientState,
      (emitAll st calls).offlineQueue =
        st.offlineQueue ++ expectedEntries st.nextId calls := by
  induction calls with
  | nil => intro st; simp [emitAll, expectedEntries]
  | cons c rest ih =>
      intro st
      have hstep : emitAll st (c :: rest) =
          emitAll (emitOffline st c.1 c.2.1 c.2.2) rest := rfl
      rw [hstep, ih]
      simp [emitOffline, expectedEntries, List.append_assoc]

theorem emitAll_fields
    (calls : List (String × JSValue × List (String × JSValue))) :
    ∀ st : ClientState,
      (emitAll st calls).isConnected = st.isConnected ∧
      (emitAll st calls).useIndexedDB = st.useIndexedDB ∧
      (emitAll st calls).joinedRooms = st.joinedRooms := by
  induction calls with
  | nil => intro st; exact ⟨rfl, rfl, rfl⟩
  | cons c rest ih =>
      intro st
      have hstep : emitAll st (c :: rest) =
          emitAll (emitOffline st c.1 c.2.1 c.2.2) rest := rfl
      rw [hstep]
      exact ih _

/-- C2: a `to(room).send` with a connected member emits the envelope at
once and persists nothing; with no member it appends `{type, data}` to
the room's log and emits nothing; a join flushes the pending entries to
the room in enqueue order and clears the log, so a second join after the
flush emits nothing. -/
theorem C2_room_store_and_forward (st : SrvState) (room ty : String) (d : JSValue) :
    (st.members room > 0 → sendToRoom st room ty d = (st, [⟨room, ty, d⟩])) ∧
    (st.members room = 0 →
      (sendToRoom st room ty d).2 = [] ∧
      (sendToRoom st room ty d).1.db room = st.db room ++ [⟨ty, d⟩] ∧
      ∀ r, r ≠ room → (sendToRoom st room ty d).1.db r = st.db r) ∧
    ((joinRoom st room).2 =
      (st.db room).map (fun e => ⟨room, e.type, e.data⟩)) ∧
    ((joinRoom st room).1.db room = []) ∧
    ((joinRoom (joinRoom st room).1 room).2 = []) := by
  have hjoin : ∀ s : SrvState,
      (joinRoom s room).2 = (s.db room).map (fun e => ⟨room, e.type, e.data⟩) ∧
      (joinRoom s room).1.db room = [] := by
    intro s
    by_cases hlen : (s.db room).length > 0
    · constructor <;> simp [joinRoom, processRoomMessages, hlen]
    · have hnil : s.db room = [] := by
        cases hn : s.db room with
        | nil => rfl
        | cons a l => rw [hn] at hlen; simp at hlen
      constructor <;> simp [joinRoom, processRoomMessages, hnil]
  refine ⟨?_, ?_, (hjoin st).1, (hjoin st).2, ?_⟩
  · intro h; simp [sendToRoom, h]
  · intro h
    refine ⟨?_, ?_, ?_⟩
    · simp [sendToRoom, h]
    · simp [sendToRoom, h]
    · intro r hr; simp [sendToRoom, h, hr]
  · have h2 := (hjoin (joinRoom st room).1).1
    rw [h2, (hjoin st).2]
    rfl

/-- C2 witness: on a concrete empty server, a send to empty room `"R"`
appends to the log and emits nothing, and the next join flushes the
logged entry to the room. -/
theorem C2_room_store_and_forward_witness :
    exSrv.members "R" = 0 ∧
    ((sendToRoom exSrv "R" "chat" (.num 1)).2 = [] ∧
      (sendToRoom exSrv "R" "chat" (.num 1)).1.db "R" =
        exSrv.db "R" ++ [⟨"chat", .num 1⟩] ∧
      ∀ r, r ≠ "R" → (sendToRoom exSrv "R" "chat" (.num 1)).1.db r = exSrv.db r) ∧
    ((joinRoom (sendToRoom exSrv "R" "chat" (.num 1)).1 "R").2 =
      ((sendToRoom exSrv "R" "chat" (.num 1)).1.db "R").map
        (fun e => ⟨"R", e.type, e.data⟩)) :=
  ⟨rfl, (C2_room_store_and_forward exSrv "R" "chat" (.num 1)).2.1 rfl,
    (C2_room_store_and_forward (sendToRoom exSrv "R" "chat" (.num 1)).1
      "R" "chat" (.num 1)).2.2.1⟩

/-- C3: the dispatcher replies exactly once per inbound message:
`2001` when the message is not an object, `2002` when `meta` is absent
or `meta.type` is not a string, `2003` when no handler is registered for
the type, `2004` carrying the error's message when the handler throws,
and success with the handler's result otherwise; `handleMessage` is a
total function into `Response`, so a handler exception never propagates
out of the dispatch. -/
theorem C3_dispatch_reply_cases (handlers : String → Option Handler)
    (message : JSValue) :
    (message.isObjectLike = false →
      handleMessage handlers message = errResp 2001 "Invalid message format") ∧
    (message.isObjectLike = true →
      ((message.getField "meta").falsy = true ∨
        ((message.getField "meta").getField "type").isStr = false) →
      handleMessage handlers message = errResp 2002 "Invalid message type") ∧
    (∀ t : String, message.isObjectLike = true →
      (message.getField "meta").falsy = false →
      (message.getField "meta").getField "type" = .str t →
      handlers t = none →
      handleMessage handlers message =
        errResp 2003 ("Unknown message type: " ++ t)) ∧
    (∀ (t e : String) (h : Handler), message.isObjectLike = true →
      (message.getField "meta").falsy = false →
      (message.getField "meta").getField "type" = .str t →
      handlers t = some h →
      h (message.getField "data") = .error e → e ≠ "" →
      handleMessage handlers message = errResp 2004 e) ∧
    (∀ (t : String) (h : Handler) (r : JSValue), message.isObjectLike = true →
      (message.getField "meta").falsy = false →
      (message.getField "meta").getField "type" = .str t →
      handlers t = some h →
      h (message.getField "data") = .ok r →
      handleMessage handlers message = okResp r) := by
  refine ⟨?_, ?_, ?_, ?_, ?_⟩
  · intro h; simp [handleMessage, h]
  · intro h1 h2
    rcases h2 with h2 | h2 <;> simp [handleMessage, h1, h2]
  · intro t h1 h2 h3 h4
    simp [handleMessage, h1, h2, h3, h4, JSValue.isStr, JSValue.strOf]
  · intro t e h h1 h2 h3 h4 h5 h6
    simp [handleMessage, h1, h2, h3, h4, h5, h6, JSValue.isStr, JSValue.strOf, jsOrStr]
  · intro t h r h1 h2 h3 h4 h5
    simp [handleMessage, h1, h2, h3, h4, h5, JSValue.isStr, JSValue.strOf]

/-- C3 witness: the five reply cases at concrete messages against the
concrete route table `exHandlers`. -/
theorem C3_dispatch_reply_cases_witness :
    (JSValue.str "nope").isObjectLike = false ∧
    handleMessage exHandlers (.str "nope") = errResp 2001 "Invalid message format" ∧
    handleMessage exHandlers (.obj []) = errResp 2002 "Invalid message type" ∧
    handleMessage exHandlers (.obj [("meta", .obj [("type", .str "zap")])]) =
      errResp 2003 "Unknown message type: zap" ∧
    handleMessage exHandlers (.obj [("meta", .obj [("type", .str "bad")])]) =
      errResp 2004 "boom" ∧
    handleMessage exHandlers
      (.obj [("meta", .obj [("type", .str "echo")]), ("data", .num 7)]) =
      okResp (.num 7) :=
  ⟨rfl,
    (C3_dispatch_reply_cases exHandlers (.str "nope")).1 rfl,
    (C3_dispatch_reply_cases exHandlers (.obj [])).2.1 rfl (Or.inl rfl),
    (C3_dispatch_reply_cases exHandlers
      (.obj [("meta", .obj [("type", .str "zap")])])).2.2.1 "zap" rfl rfl rfl rfl,
    (C3_dispatch_reply_cases exHandlers
      (.obj [("meta", .obj [("type", .str "bad")])])).2.2.2.1 "bad" "boom"
      (fun _ => .error "boom") rfl rfl rfl rfl rfl (by simp),
    (C3_dispatch_reply_cases exHandlers
      (.obj [("meta", .obj [("type", .str "echo")]), ("data", .num 7)])).2.2.2.2
      "echo" (fun d => .ok d) (.num 7) rfl rfl rfl rfl rfl⟩

theorem stepPending_zero_timer (route : String) (st : Option Settled) :
    stepPending route 0 st .timerFire = st := by
  cases st <;> simp [stepPending]

theorem runPending_zero_filter (route : String) (events : List PEvent) :
    ∀ st : Option Settled,
      events.foldl (stepPending route 0) st =
        (events.filter PEvent.isAck).foldl (stepPending route 0) st := by
  induction events with
  | nil => intro st; rfl
  | cons e rest ih =>
      intro st
      cases e with
      | timerFire =>
          simp only [List.foldl, List.filter, PEvent.isAck,
            stepPending_zero_timer]
          exact ih st
      | ack r =>
          simp only [List.foldl, List.filter, PEvent.isAck]
          exact ih _

/-- C4: with an effective timeout `ms > 0` and no acknowledgement before
the timer fires, the pending promise is rejected with exactly
`TIMEOUT: <route> (<ms>ms)` where the route is `meta.type || eventName`;
with `ms = 0` no timer is started — a timer event is a no-op and the run
is fully determined by the acknowledgement events alone, so the request
never times out. -/
theorem C4_request_timeout (metaType : Option String) (eventName : String)
    (ms : Nat) (rest events : List PEvent) (hms : 0 < ms) :
    (runPending (effRoute metaType eventName) ms (.timerFire :: rest) =
      some (.rejected ("TIMEOUT: " ++ effRoute metaType eventName ++
        " (" ++ toString ms ++ "ms)"))) ∧
    (∀ st : Option Settled,
      stepPending (effRoute metaType eventName) 0 st .timerFire = st) ∧
    (runPending (effRoute metaType eventName) 0 events =
      runPending (effRoute metaType eventName) 0 (events.filter PEvent.isAck)) := by
  refine ⟨?_, fun st => stepPending_zero_timer _ st, runPending_zero_filter _ events none⟩
  have h1 : stepPending (effRoute metaType eventName) ms none .timerFire =
      some (.rejected (timeoutMsg (effRoute metaType eventName) ms)) := by
    simp [stepPending, hms]
  simp only [runPending, List.foldl, h1]
  exact settled_absorb _ ms rest _

/-- C4 witness: a 200ms timeout with the acknowledgement arriving only
after the timer rejects with `TIMEOUT: slow (200ms)`; with timeout 0 the
same event sequence is governed by the acknowledgement alone. -/
theorem C4_request_timeout_witness :
    (0 : Nat) < 200 ∧
    runPending (effRoute (some "slow") "message") 200
        [.timerFire, .ack (okResp (.num 1))] =
      some (.rejected ("TIMEOUT: " ++ effRoute (some "slow") "message" ++
        " (" ++ toString (200 : Nat) ++ "ms)")) ∧
    runPending (effRoute (some "slow") "message") 0
        [.timerFire, .ack (okResp (.num 1))] =
      runPending (effRoute (some "slow") "message") 0
        ([.timerFire, .ack (okResp (.num 1))].filter PEvent.isAck) :=
  ⟨by decide,
    (C4_request_timeout (some "slow") "message" 200 [.ack (okResp (.num 1))]
      [] (by decide)).1,
    (C4_request_timeout (some "slow") "message" 200 []
      [.timerFire, .ack (okResp (.num 1))] (by decide)).2.2⟩

/-- C5: the pending promise settles exactly once, from whichever of
acknowledgement and timeout comes first: a settled promise is unchanged
by any further events (so a late acknowledgement after the timeout
rejection is discarded), an acknowledgement that arrives first settles
with its outcome, and a timer that fires first rejects with the timeout
error even when an acknowledgement follows. -/
theorem C5_settle_exactly_once (route : String) (ms : Nat) (hms : 0 < ms) :
    (∀ (es1 es2 : List PEvent) (s : Settled),
      runPending route ms es1 = some s →
      runPending route ms (es1 ++ es2) = some s) ∧
    (∀ (r : Response) (rest : List PEvent),
      runPending route ms (.ack r :: rest) = some (ackOutcome r)) ∧
    (∀ (r : Response) (rest : List PEvent),
      runPending route ms (.timerFire :: .ack r :: rest) =
        some (.rejected (timeoutMsg route ms))) := by
  refine ⟨?_, ?_, ?_⟩
  · intro es1 es2 s h
    simp only [runPending, List.foldl_append]
    simp only [runPending] at h
    rw [h]
    exact settled_absorb route ms es2 s
  · intro r rest
    have h1 : stepPending route ms none (.ack r) = some (ackOutcome r) := rfl
    simp only [runPending, List.foldl, h1]
    exact settled_absorb route ms rest _
  · intro r rest
    have h1 : stepPending route ms none .timerFire =
        some (.rejected (timeoutMsg route ms)) := by
      simp [stepPending, hms]
    simp only [runPending, List.foldl, h1]
    exact settled_absorb route ms (.ack r :: rest) _

/-- C5 witness: with a 100ms timeout, an acknowledgement arriving first
resolves the promise and a later timer event leaves it unchanged; a
timer firing first rejects and the late acknowledgement is discarded. -/
theorem C5_settle_exactly_once_witness :
    (0 : Nat) < 100 ∧
    runPending "r" 100 [.ack (okResp (.num 2))] =
      some (ackOutcome (okResp (.num 2))) ∧
    runPending "r" 100 ([.ack (okResp (.num 2))] ++ [.timerFire]) =
      some (ackOutcome (okResp (.num 2))) ∧
    runPending "r" 100 [.timerFire, .ack (okResp (.num 2))] =
      some (.rejected (timeoutMsg "r" 100)) :=
  ⟨by decide,
    (C5_settle_exactly_once "r" 100 (by decide)).2.1 (okResp (.num 2)) [],
    (C5_settle_exactly_once "r" 100 (by decide)).1 [.ack (okResp (.num 2))]
      [.timerFire] (ackOutcome (okResp (.num 2)))
      ((C5_settle_exactly_once "r" 100 (by decide)).2.1 (okResp (.num 2)) []),
    (C5_settle_exactly_once "r" 100 (by decide)).2.2 (okResp (.num 2)) []⟩

/-- C7 counterexample: two failure acknowledgements differing only in
`meta.code` produce identical rejections — the rejection is built from
the error string alone (`new Error(meta.error || 'Unknown error')`), so
it does not carry the response's code. -/
theorem C7_code_not_carried_cex :
    ackOutcome ⟨⟨false, some 2003, some "denied"⟩, .null⟩ = .rejected "denied" ∧
    ackOutcome ⟨⟨false, some 9999, some "denied"⟩, .null⟩ = .rejected "denied" ∧
    (2003 : Int) ≠ 9999 :=
  ⟨rfl, rfl, by decide⟩

/-- C7 amended: an acknowledgement with `success=false` rejects with an
error whose message is the response's error string (falling back to
`Unknown error` when the string is absent or empty); the response's code
is not attached.  An acknowledgement with `success=true` resolves with
the response's data. -/
theorem C7_ack_settlement (r : Response) :
    (∀ e : String, r.meta.success = false → r.meta.error = some e → e ≠ "" →
      ackOutcome r = .rejected e) ∧
    (r.meta.success = false → (r.meta.error = none ∨ r.meta.error = some "") →
      ackOutcome r = .rejected "Unknown error") ∧
    (r.meta.success = true → ackOutcome r = .resolved r.data) := by
  refine ⟨?_, ?_, ?_⟩
  · intro e h1 h2 h3
    simp [ackOutcome, h1, h2, jsOrStr, h3]
  · intro h1 h2
    rcases h2 with h2 | h2 <;> simp [ackOutcome, h1, h2, jsOrStr]
  · intro h1
    simp [ackOutcome, h1]

/-- C7 amended witness: a concrete failure acknowledgement rejects with
its error string and a concrete success acknowledgement resolves with
its data. -/
theorem C7_ack_settlement_witness :
    ackOutcome ⟨⟨false, some 2003, some "denied"⟩, .null⟩ = .rejected "denied" ∧
    ackOutcome (okResp (.num 7)) = .resolved (.num 7) :=
  ⟨(C7_ack_settlement ⟨⟨false, some 2003, some "denied"⟩, .null⟩).1 "denied"
      rfl rfl (by decide),
    (C7_ack_settlement (okResp (.num 7))).2.2 rfl⟩

/-- C1: a sequence of `emit`/`send` calls while disconnected appends one
entry each to the offline queue in call order; after reconnection the
flush submits exactly those entries to the transport in the same FIFO
order, leaves the in-memory queue empty, and — since every entry was
processed — clears the durable store. -/
theorem C1_offline_queue_fifo (st : ClientState)
    (calls : List (String × JSValue × List (String × JSValue)))
    (outcome : Submission → Except String JSValue)
    (_hdis : st.isConnected = false)
    (hq : st.offlineQueue = []) (hidb : st.useIndexedDB = true) :
    ((emitAll st calls).offlineQueue = expectedEntries st.nextId calls) ∧
    ((emitAll st calls).offlineQueue.length = calls.length) ∧
    ((processQueue { emitAll st calls with
        isConnected := true, hasSocket := true } outcome).2 =
      (expectedEntries st.nextId calls).map queueSub) ∧
    ((processQueue { emitAll st calls with
        isConnected := true, hasSocket := true } outcome).1.offlineQueue = []) ∧
    ((processQueue { emitAll st calls with
        isConnected := true, hasSocket := true } outcome).1.persisted = []) := by
  have hqueue : (emitAll st calls).offlineQueue = expectedEntries st.nextId calls := by
    rw [emitAll_offlineQueue calls st, hq]; rfl
  have hlen : (emitAll st calls).offlineQueue.length = calls.length := by
    rw [hqueue, expectedEntries_length]
  have hidb2 : (emitAll st calls).useIndexedDB = true := by
    rw [(emitAll_fields calls st).2.1, hidb]
  have hdrain : drainQueue (emitAll st calls).offlineQueue outcome =
      ((emitAll st calls).offlineQueue.map queueSub,
        (emitAll st calls).offlineQueue.length) := by
    apply drainQueue_all_live
    intro q hmem
    rw [hqueue] at hmem
    exact expectedEntries_live calls st.nextId q hmem
  refine ⟨hqueue, hlen, ?_, ?_, ?_⟩
  · simp only [processQueue, hdrain]
    simp [hqueue]
  · simp [processQueue, hdrain]
  · simp only [processQueue, hdrain]
    simp [hidb2]

/-- C1 witness: two concrete sends queued offline are flushed in order
on a fresh browser client, emptying the queue and the durable store. -/
theorem C1_offline_queue_fifo_witness :
    exClient.isConnected = false ∧ exClient.offlineQueue = [] ∧
    exClient.useIndexedDB = true ∧
    ((emitAll exClient exCalls).offlineQueue =
      expectedEntries exClient.nextId exCalls) ∧
    ((emitAll exClient exCalls).offlineQueue.length = exCalls.length) ∧
    ((processQueue { emitAll exClient exCalls with
        isConnected := true, hasSocket := true } exOutcome).2 =
      (expectedEntries exClient.nextId exCalls).map queueSub) ∧
    ((processQueue { emitAll exClient exCalls with
        isConnected := true, hasSocket := true } exOutcome).1.offlineQueue = []) ∧
    ((processQueue { emitAll exClient exCalls with
        isConnected := true, hasSocket := true } exOutcome).1.persisted = []) := by
  have h := C1_offline_queue_fifo exClient exCalls exOutcome rfl rfl rfl
  exact ⟨rfl, rfl, rfl, h.1, h.2.1, h.2.2.1, h.2.2.2.1, h.2.2.2.2⟩

/-- C6 counterexample: a client that authenticated with session data
`exSession` and then calls `connect` again hits the already-connected
guard: the promise resolves with `undefined`, not with the earlier
session data — nothing was cached. -/
theorem C6_no_cached_session_cex :
    (runConnect 0 exOutcome exJoinOutcome exClient
      [.transportConnect, .authSuccess exSession]).promise =
        some (.resolved exSession) ∧
    connectWhenConnected
      (runConnect 0 exOutcome exJoinOutcome exClient
        [.transportConnect, .authSuccess exSession]).client =
      some ((runConnect 0 exOutcome exJoinOutcome exClient
        [.transportConnect, .authSuccess exSession]).client, JSValue.undef) ∧
    JSValue.undef ≠ exSession := by
  refine ⟨rfl, rfl, ?_⟩
  intro h
  simp [exSession] at h

/-- C6 amended: calling `connect` while already Connected is a no-op —
no socket is created and no field is mutated — and the returned promise
resolves with `undefined` (the session data is not cached and not
returned). -/
theorem C6_connect_noop (st : ClientState) (h : st.isConnected = true) :
    connectWhenConnected st = some (st, JSValue.undef) := by
  simp [connectWhenConnected, h]

/-- C6 amended witness: the no-op at a concrete connected client. -/
theorem C6_connect_noop_witness :
    exClientJoined.isConnected = true ∧
    connectWhenConnected exClientJoined = some (exClientJoined, JSValue.undef) :=
  ⟨rfl, C6_connect_noop exClientJoined rfl⟩

/-- C8: `rejoinRooms` attempts a rejoin for every room of the membership
set in order, regardless of per-room failures (each attempt is
independent and a failure does not abort the rest), mutates no client
field, and the membership set after a disconnect, reconnection and
rejoin is exactly the set from before the disconnect. -/
theorem C8_rejoin_best_effort (st : ClientState)
    (joinOutcome : String → Except String JSValue)
    (h : st.isConnected = true) :
    ((rejoinRooms st joinOutcome).2.map Prod.fst = st.joinedRooms) ∧
    ((rejoinRooms st joinOutcome).1 = st) ∧
    ((rejoinRooms { disconnectClient st with
        isConnected := true, hasSocket := true } joinOutcome).1.joinedRooms =
      st.joinedRooms) ∧
    ((rejoinRooms { disconnectClient st with
        isConnected := true, hasSocket := true } joinOutcome).2.map Prod.fst =
      st.joinedRooms) := by
  have hdc : (disconnectClient st).joinedRooms = st.joinedRooms := by
    by_cases hs : st.hasSocket = true <;> simp [disconnectClient, hs]
  have hgen : ∀ s : ClientState, s.isConnected = true →
      (rejoinRooms s joinOutcome).2.map Prod.fst = s.joinedRooms ∧
      (rejoinRooms s joinOutcome).1 = s := by
    intro s hs
    by_cases hj : s.joinedRooms.isEmpty = true
    · have hnil : s.joinedRooms = [] := by
        cases hc : s.joinedRooms with
        | nil => rfl
        | cons a l => rw [hc] at hj; simp at hj
      constructor <;> simp [rejoinRooms, hs, hj, hnil]
    · constructor <;>
        simp [rejoinRooms, hs, hj, rejoinLoop_map_fst]
  have h1 := hgen st h
  have h2 := hgen { disconnectClient st with
      isConnected := true, hasSocket := true } rfl
  refine ⟨h1.1, h1.2, ?_, ?_⟩
  · rw [h2.2]; exact hdc
  · rw [h2.1]; exact hdc

/-- C8 witness: a connected client joined to two rooms, where rejoining
`"r2"` fails: both rooms are still attempted in order and the membership
set is unchanged. -/
theorem C8_rejoin_best_effort_witness :
    exClientJoined.isConnected = true ∧
    ((rejoinRooms exClientJoined exJoinOutcome).2.map Prod.fst =
      exClientJoined.joinedRooms) ∧
    ((rejoinRooms exClientJoined exJoinOutcome).1 = exClientJoined) ∧
    exJoinOutcome "r2" = .error "join failed" :=
  ⟨rfl, (C8_rejoin_best_effort exClientJoined exJoinOutcome rfl).1,
    (C8_rejoin_best_effort exClientJoined exJoinOutcome rfl).2.1, rfl⟩

theorem stepConnect_authSuccess (ms : Nat)
    (outcome : Submission → Except String JSValue)
    (joinOutcome : String → Except String JSValue)
    (c : ClientState) (p : Option Settled) (fl : List Submission)
    (ra : List (String × Bool)) (d : JSValue) (hc : c.isConnected = true) :
    ((stepConnect ms outcome joinOutcome ⟨c, p, fl, ra⟩
        (.authSuccess d)).client.isConnected = true) ∧
    ((stepConnect ms outcome joinOutcome ⟨c, p, fl, ra⟩
        (.authSuccess d)).client.offlineQueue = []) ∧
    ((stepConnect ms outcome joinOutcome ⟨c, p, fl, ra⟩
        (.authSuccess d)).flushed = fl ++ (drainQueue c.offlineQueue outcome).1) ∧
    ((stepConnect ms outcome joinOutcome ⟨c, p, fl, ra⟩
        (.authSuccess d)).rejoinAttempts.map Prod.fst =
      ra.map Prod.fst ++ c.joinedRooms) ∧
    ((stepConnect ms outcome joinOutcome ⟨c, p, fl, ra⟩
        (.authSuccess d)).promise =
      match p with | some s => some s | none => some (.resolved d)) := by
  rcases hdq : drainQueue c.offlineQueue outcome with ⟨subs, n⟩
  by_cases hj : c.joinedRooms.isEmpty = true
  · have hnil : c.joinedRooms = [] := by
      cases hc2 : c.joinedRooms with
      | nil => rfl
      | cons a l => rw [hc2] at hj; simp at hj
    simp [stepConnect, processQueue, rejoinRooms, hc, hdq, hj, hnil]
  · simp [stepConnect, processQueue, rejoinRooms, hc, hdq, hj,
      rejoinLoop_map_fst]

/-- C9: when `connect` runs with a positive timeout and the timer fires
before authentication, the promise is rejected with
`TIMEOUT: connect (<ms>ms)`, but no listener is removed: a later
transport connect and `auth_success` signal still set the connected
state, flush the offline queue and rejoin the rooms — the timeout
cancels only the caller's wait. -/
theorem C9_connect_timeout_side_effects (ms : Nat)
    (outcome : Submission → Except String JSValue)
    (joinOutcome : String → Except String JSValue)
    (st : ClientState) (d : JSValue) (hms : 0 < ms) :
    ((runConnect ms outcome joinOutcome st
        [.timerFire, .transportConnect, .authSuccess d]).promise =
      some (.rejected (timeoutMsg "connect" ms))) ∧
    ((runConnect ms outcome joinOutcome st
        [.timerFire, .transportConnect, .authSuccess d]).client.isConnected = true) ∧
    ((runConnect ms outcome joinOutcome st
        [.timerFire, .transportConnect, .authSuccess d]).client.offlineQueue = []) ∧
    ((runConnect ms outcome joinOutcome st
        [.timerFire, .transportConnect, .authSuccess d]).flushed =
      (drainQueue st.offlineQueue outcome).1) ∧
    ((runConnect ms outcome joinOutcome st
        [.timerFire, .transportConnect, .authSuccess d]).rejoinAttempts.map
        Prod.fst = st.joinedRooms) := by
  have h1 : stepConnect ms outcome joinOutcome ⟨st, none, [], []⟩ .timerFire =
      ⟨st, some (.rejected (timeoutMsg "connect" ms)), [], []⟩ := by
    simp [stepConnect, hms]
  have h2 : stepConnect ms outcome joinOutcome
      ⟨st, some (.rejected (timeoutMsg "connect" ms)), [], []⟩ .transportConnect =
      ⟨{ st with isConnected := true, hasSocket := true },
        some (.rejected (timeoutMsg "connect" ms)), [], []⟩ := rfl
  have hrun : runConnect ms outcome joinOutcome st
      [.timerFire, .transportConnect, .authSuccess d] =
      stepConnect ms outcome joinOutcome
        ⟨{ st with isConnected := true, hasSocket := true },
          some (.rejected (timeoutMsg "connect" ms)), [], []⟩ (.authSuccess d) := by
    simp only [runConnect, List.foldl, h1, h2]
  have h3 := stepConnect_authSuccess ms outcome joinOutcome
    { st with isConnected := true, hasSocket := true }
    (some (.rejected (timeoutMsg "connect" ms))) [] [] d rfl
  rw [hrun]
  refine ⟨h3.2.2.2.2, h3.1, h3.2.1, ?_, ?_⟩
  · rw [h3.2.2.1]; rfl
  · rw [h3.2.2.2.1]; rfl

/-- C9 witness: a concrete run on a client with two joined rooms, a
positive timeout firing first, then transport connect and
authentication: the promise is timeout-rejected while the handshake
side effects still happen. -/
theorem C9_connect_timeout_side_effects_witness :
    (0 : Nat) < 50 ∧
    ((runConnect 50 exOutcome exJoinOutcome exClientJoined
        [.timerFire, .transportConnect, .authSuccess exSession]).promise =
      some (.rejected (timeoutMsg "connect" 50))) ∧
    ((runConnect 50 exOutcome exJoinOutcome exClientJoined
        [.timerFire, .transportConnect, .authSuccess exSession]).client.isConnected
      = true) ∧
    ((runConnect 50 exOutcome exJoinOutcome exClientJoined
        [.timerFire, .transportConnect, .authSuccess exSession]).rejoinAttempts.map
        Prod.fst = exClientJoined.joinedRooms) := by
  have h := C9_connect_timeout_side_effects 50 exOutcome exJoinOutcome
    exClientJoined exSession (by decide)
  exact ⟨by decide, h.1, h.2.1, h.2.2.2.2⟩

/-- C10: `onMessage(route, handler)` on a client whose socket does not
yet exist returns with the handler table untouched — the handler is
silently not registered — and an inbound push for that route is then
dropped (no handler is found to run). -/
theorem C10_onMessage_no_socket (st : ClientState) (route : String) (h : Nat)
    (hsock : st.hasSocket = false) :
    (clientOnMessage st route h = st) ∧
    (st.messageHandlers.find? (fun p => p.1 == route) = none →
      ∀ d : JSValue,
        clientRoute (clientOnMessage st route h)
          (.obj [("meta", .obj [("type", .str route)]), ("data", d)]) = none) := by
  have hnoop : clientOnMessage st route h = st := by
    simp [clientOnMessage, hsock]
  refine ⟨hnoop, ?_⟩
  intro hfind d
  rw [hnoop]
  by_cases hr : route = ""
  · subst hr
    simp [clientRoute, JSValue.getField, JSValue.falsy]
  · simp [clientRoute, JSValue.getField, JSValue.falsy, hr, hfind]

/-- C10 witness: registering a handler on a fresh client (no socket yet)
leaves the table empty and a subsequent push for that route finds no
handler. -/
theorem C10_onMessage_no_socket_witness :
    exClient.hasSocket = false ∧
    exClient.messageHandlers.find? (fun p => p.1 == "news") = none ∧
    (clientOnMessage exClient "news" 1 = exClient) ∧
    (clientRoute (clientOnMessage exClient "news" 1)
      (.obj [("meta", .obj [("type", .str "news")]), ("data", .num 3)]) = none) :=
  ⟨rfl, rfl, (C10_onMessage_no_socket exClient "news" 1 rfl).1,
    (C10_onMessage_no_socket exClient "news" 1 rfl).2 rfl (.num 3)⟩
